import Mathlib

/-!
A shallow embedding of the core of the `tmt` step/plugin pipeline and guest
execution engine, together with proofs of its specified properties.

The embedding follows the Python source:

* `tmt/utils.py` — the command execution primitive `Common._run`, the generic
  `wait` helper, and the `SerializableContainer` machinery;
* `tmt/steps/provision/__init__.py` — `GuestData`/`GuestSshData`,
  `Guest.save`/`Guest.load`, `GuestSsh.push`/`pull`/`reboot`/`_check_rsync`,
  and `Provision.go`;
* `tmt/steps/execute/internal.py` — `ExecuteInternal._handle_reboot` and the
  test loop of `ExecuteInternal._run_tests`.

Machine-level effects (process groups, threads, sleeping) are modelled as
explicit data: a subprocess is an abstract behaviour (duration, exit code,
captured output as a function of time), the wall clock is an explicit
rational number threaded through the `wait` loop, and loops are given fuel.
-/

namespace Tmt

/-! ### Command execution primitive (`Common._run`, tmt/utils.py:725-849)

`PROCESS_TIMEOUT = 124` is the sentinel return code used when a command is
killed after exceeding its timeout.
-/

def PROCESS_TIMEOUT : Int := 124

/-- Abstract behaviour of one subprocess: how long it would run if left
alone, the code it would exit with, and the stdout/stderr lines the stream
reader threads have captured by a given moment.  With `join=True` the source
redirects stderr into stdout, so the merged stream is a separate function. -/
structure ProcSpec where
  duration : Nat
  exitCode : Int
  stdoutAt : Nat → List String
  stderrAt : Nat → List String
  mergedAt : Nat → List String

/-- The payload of `tmt.utils.RunError`: message is reduced to the return
code it reports, plus the captured output. -/
structure RunErrorData where
  returncode : Int
  stdout : Option (List String)
  stderr : Option (List String)
  deriving Repr, DecidableEq

/-- Output returned on success (`CommandOutput`). -/
structure CommandOutput where
  stdout : Option (List String)
  stderr : Option (List String)
  deriving Repr, DecidableEq

/-- Observable side effects of `Common._run`: whether `os.killpg` was sent to
the process group, and the time at which `_run` stopped waiting for the
process (the moment `process.wait` returned). -/
structure RunEffects where
  killedGroup : Bool
  waitedUntil : Nat
  deriving Repr, DecidableEq

/-- `Common._run` (tmt/utils.py:725-849).  Interactive mode bypasses capture
and swallows non-zero exits.  Otherwise the subprocess runs in its own
session; `process.wait(timeout=timeout)` either returns within the timeout
or raises `TimeoutExpired`, upon which the whole process group is killed
with SIGKILL and `process.returncode` is overwritten with the sentinel
`PROCESS_TIMEOUT`.  A non-zero return code is turned into a `RunError`
carrying the command's return code and the output captured so far. -/
def commonRun (p : ProcSpec) (timeout : Option Nat) (join : Bool)
    (interactive : Bool) : RunEffects × Except RunErrorData CommandOutput :=
  if interactive then
    ⟨⟨false, p.duration⟩, .ok ⟨none, none⟩⟩
  else
    let timedOut : Bool := match timeout with
      | none => false
      | some t => decide (t < p.duration)
    let waited : Nat := match timeout with
      | none => p.duration
      | some t => min p.duration t
    let rc : Int := if timedOut then PROCESS_TIMEOUT else p.exitCode
    let outLines : List String := if join then p.mergedAt waited else p.stdoutAt waited
    let errLines : Option (List String) := if join then none else some (p.stderrAt waited)
    let effects : RunEffects := ⟨timedOut, waited⟩
    if rc ≠ 0 then
      ⟨effects, .error ⟨rc, some outLines, errLines⟩⟩
    else if join then
      ⟨effects, .ok ⟨some outLines, none⟩⟩
    else
      ⟨effects, .ok ⟨some outLines, errLines⟩⟩

end Tmt

namespace Tmt

/-! ### Generic wait/retry helper (`tmt.utils.wait`, tmt/utils.py:3653-3750) -/

def DEFAULT_WAIT_TICK : ℚ := 30
def DEFAULT_WAIT_TICK_INCREASE : ℚ := 1

/-- What one invocation of the `check` callback does: succeed with a value,
raise `WaitingIncomplete`, or raise some other exception (which `wait`
propagates). -/
inductive CheckOutcome (ε α : Type) where
  | success (v : α)
  | incomplete
  | raised (e : ε)

/-- One invocation of `check`: its outcome and how long the call took. -/
structure CheckAttempt (ε α : Type) where
  outcome : CheckOutcome ε α
  duration : ℚ

/-- Result of `wait`: the value and finish time on success, a
`WaitingTimedOutError` with its `check_success` flag, a propagated
exception, the `GeneralError` raised for a non-positive tick, or fuel
exhaustion (an artefact of the embedding: the source loop is unbounded). -/
inductive WaitResult (ε α : Type) where
  | success (v : α) (t : ℚ)
  | timedOut (checkSuccess : Bool) (t : ℚ)
  | raised (e : ε) (t : ℚ)
  | tickError
  | fuelOut

/-- The `while True` loop of `wait` (tmt/utils.py:3702-3750).  The deadline
is fixed; `now` is the clock at the top of the loop.  The loop first checks
`now > deadline`, then calls `check`; a success finishing past the deadline
is converted into `WaitingTimedOutError(check_success=True)`; on
`WaitingIncomplete` the loop sleeps `tick` seconds and multiplies `tick` by
`tick_increase`. -/
def waitLoop {ε α : Type} (attempts : Nat → CheckAttempt ε α) (deadline : ℚ) :
    Nat → Nat → ℚ → ℚ → ℚ → WaitResult ε α
  | 0, _, _, _, _ => .fuelOut
  | fuel + 1, i, now, tick, tickIncrease =>
    if deadline < now then
      .timedOut false now
    else
      let a := attempts i
      let finished := now + a.duration
      match a.outcome with
      | .raised e => .raised e finished
      | .success v =>
        if deadline < finished then .timedOut true finished
        else .success v finished
      | .incomplete =>
        waitLoop attempts deadline fuel (i + 1) (finished + tick)
          (tick * tickIncrease) tickIncrease

/-- `tmt.utils.wait` (tmt/utils.py:3653-3750).  Rejects a non-positive tick
with a `GeneralError`, computes the deadline exactly once as
`now + timeout`, then enters the loop. -/
def wait {ε α : Type} (attempts : Nat → CheckAttempt ε α) (timeout : ℚ)
    (tick tickIncrease : ℚ) (start : ℚ) (fuel : Nat) : WaitResult ε α :=
  if tick ≤ 0 then .tickError
  else waitLoop attempts (start + timeout) fuel 0 start tick tickIncrease

/-- Any timed-out outcome of the loop happens strictly after the deadline:
the `check_success=False` branch fires only when `now` has passed the
deadline, and the `check_success=True` branch only when the successful call
finished past it. -/
theorem waitLoop_timedOut_after {ε α : Type} (attempts : Nat → CheckAttempt ε α)
    (deadline : ℚ) :
    ∀ (fuel i : Nat) (now tick tickIncrease : ℚ),
      ∀ flag t, waitLoop attempts deadline fuel i now tick tickIncrease =
        .timedOut flag t → deadline < t := by
  intro fuel
  induction fuel with
  | zero => intro i now tick tickIncrease flag t h; simp [waitLoop] at h
  | succ fuel ih =>
    intro i now tick tickIncrease flag t h
    rw [waitLoop] at h
    by_cases hlt : deadline < now
    · simp only [hlt, if_true] at h
      cases h; exact hlt
    · simp only [hlt, if_false] at h
      rcases ho : (attempts i).outcome with v | _ | e <;> rw [ho] at h
      · by_cases hfin : deadline < now + (attempts i).duration
        · simp only [hfin, if_true] at h
          cases h; exact hfin
        · simp only [hfin, if_false] at h; cases h
      · exact ih (i + 1) (now + (attempts i).duration + tick)
          (tick * tickIncrease) tickIncrease flag t h
      · cases h

/-- When every `check` call raises `WaitingIncomplete`, the loop advances the
clock by at least `t0` per iteration (the tick never shrinks below its
initial value since `tick_increase ≥ 1`), so with enough fuel it reaches the
deadline and fails with `check_success = False` — and only strictly after
the deadline. -/
theorem waitLoop_always_incomplete {ε α : Type} (attempts : Nat → CheckAttempt ε α)
    (deadline t0 : ℚ) (ht0 : 0 < t0)
    (hinc : ∀ j, (attempts j).outcome = .incomplete)
    (hdur : ∀ j, 0 ≤ (attempts j).duration) :
    ∀ (fuel i : Nat) (now tick tickIncrease : ℚ),
      t0 ≤ tick → 1 ≤ tickIncrease → deadline < now + (fuel : ℚ) * t0 →
      ∃ t, waitLoop attempts deadline (fuel + 1) i now tick tickIncrease =
        .timedOut false t ∧ deadline < t := by
  intro fuel
  induction fuel with
  | zero =>
    intro i now tick tickIncrease _ _ hfu
    rw [Nat.cast_zero, zero_mul, add_zero] at hfu
    refine ⟨now, ?_, hfu⟩
    rw [waitLoop]
    simp [hfu]
  | succ fuel ih =>
    intro i now tick tickIncrease htick hti hfu
    by_cases hlt : deadline < now
    · refine ⟨now, ?_, hlt⟩
      rw [waitLoop]
      simp [hlt]
    · have step : ∃ t,
          waitLoop attempts deadline (fuel + 1) (i + 1)
            (now + (attempts i).duration + tick) (tick * tickIncrease)
            tickIncrease = .timedOut false t ∧ deadline < t := by
        refine ih (i + 1) (now + (attempts i).duration + tick)
          (tick * tickIncrease) tickIncrease ?_ hti ?_
        · nlinarith
        · have hd := hdur i
          push_cast at hfu
          nlinarith
      obtain ⟨t, hrun, ht⟩ := step
      refine ⟨t, ?_, ht⟩
      rw [waitLoop]
      simp only [hlt, if_false]
      rw [hinc i]
      exact hrun

/-- `wait` with an always-incomplete check and a positive tick fails as
`WaitingTimedOutError` with `check_success = False`, strictly after the
deadline, given fuel covering the timeout. -/
theorem wait_always_incomplete {ε α : Type} (attempts : Nat → CheckAttempt ε α)
    (timeout tick tickIncrease start : ℚ) (fuel : Nat)
    (htick : 0 < tick) (hti : 1 ≤ tickIncrease)
    (hdur : ∀ j, 0 ≤ (attempts j).duration)
    (hinc : ∀ j, (attempts j).outcome = .incomplete)
    (hfu : timeout < (fuel : ℚ) * tick) :
    ∃ t, wait attempts timeout tick tickIncrease start (fuel + 1) =
      .timedOut false t ∧ start + timeout < t := by
  have h := waitLoop_always_incomplete attempts (start + timeout) tick htick
    hinc hdur fuel 0 start tick tickIncrease le_rfl hti (by linarith)
  obtain ⟨t, hrun, ht⟩ := h
  refine ⟨t, ?_, ht⟩
  rw [wait]
  simp only [not_le.mpr htick, if_false]
  exact hrun

/-- C1: a command run through `run()` with `timeout = T` whose subprocess
would run longer than `T` has its whole process group killed, its return
code overwritten with the sentinel `PROCESS_TIMEOUT = 124`, and the output
captured up to the kill is still handed to the caller inside the resulting
run error; `_run` stops waiting for the process at time `T`, never later. -/
theorem run_timeout_spec (p : ProcSpec) (T : Nat) (join : Bool)
    (hT : T < p.duration) :
    commonRun p (some T) join false =
      (⟨true, T⟩,
        .error ⟨PROCESS_TIMEOUT,
          some (if join then p.mergedAt T else p.stdoutAt T),
          if join then none else some (p.stderrAt T)⟩) ∧
    (commonRun p (some T) join false).1.waitedUntil ≤ T := by
  have hmin : min p.duration T = T := min_eq_right hT.le
  constructor
  · simp [commonRun, hT, hmin, PROCESS_TIMEOUT]
  · simp [commonRun, hT, hmin, PROCESS_TIMEOUT]

/-- Witness for C1 at a concrete subprocess behaviour. -/
theorem run_timeout_spec_witness :
    3 < 5 ∧
    commonRun ⟨5, 0, fun _ => [], fun _ => [], fun _ => []⟩ (some 3) false false =
      (⟨true, 3⟩, .error ⟨PROCESS_TIMEOUT, some [], some []⟩) ∧
    (commonRun ⟨5, 0, fun _ => [], fun _ => [], fun _ => []⟩
      (some 3) false false).1.waitedUntil ≤ 3 :=
  ⟨by decide,
    run_timeout_spec ⟨5, 0, fun _ => [], fun _ => [], fun _ => []⟩ 3 false (by decide)⟩

/-- C4: with a positive tick, the deadline of `wait` is fixed once, at the
start, as `start + timeout`, and (1) every timed-out failure — with either
flag — happens strictly after that deadline, never earlier; (2) a `check`
call that succeeds but finishes past the deadline fails as timed-out with
`check_success = True`, distinguishing it from plain timing out; (3) a
`check` that always raises `WaitingIncomplete` makes `wait` fail as
timed-out (with `check_success = False`, i.e. "timed out waiting") after
the timeout has elapsed, never earlier. -/
theorem wait_deadline_spec {ε α : Type} (attempts : Nat → CheckAttempt ε α)
    (timeout tick tickIncrease start : ℚ)
    (htick : 0 < tick) (hti : 1 ≤ tickIncrease)
    (hdur : ∀ j, 0 ≤ (attempts j).duration) :
    (∀ (fuel : Nat) (flag : Bool) (t : ℚ),
      wait attempts timeout tick tickIncrease start fuel = .timedOut flag t →
      start + timeout < t) ∧
    (∀ (fuel i : Nat) (now : ℚ) (v : α),
      (attempts i).outcome = .success v → ¬ start + timeout < now →
      start + timeout < now + (attempts i).duration →
      waitLoop attempts (start + timeout) (fuel + 1) i now tick tickIncrease =
        .timedOut true (now + (attempts i).duration)) ∧
    ((∀ j, (attempts j).outcome = .incomplete) →
      ∀ fuel : Nat, timeout < (fuel : ℚ) * tick →
      ∃ t, wait attempts timeout tick tickIncrease start (fuel + 1) =
        .timedOut false t ∧ start + timeout < t) := by
  have hntick : ¬ tick ≤ 0 := not_le.mpr htick
  refine ⟨?_, ?_, ?_⟩
  · intro fuel flag t h
    rw [wait] at h
    simp only [hntick, if_false] at h
    exact waitLoop_timedOut_after attempts (start + timeout) fuel 0 start
      tick tickIncrease flag t h
  · intro fuel i now v hv hnow hfin
    rw [waitLoop]
    simp only [hnow, if_false]
    rw [hv]
    simp [hfin]
  · intro hinc fuel hfu
    exact wait_always_incomplete attempts timeout tick tickIncrease start fuel
      htick hti hdur hinc hfu

/-- Witness for C4 at a concrete always-incomplete check -/
theorem wait_deadline_spec_witness :
    (0 : ℚ) < 3 ∧ (1 : ℚ) ≤ 1 ∧
    (∃ t, wait (fun _ => (⟨CheckOutcome.incomplete, 0⟩ : CheckAttempt Unit Unit))
      10 3 1 0 (4 + 1) = .timedOut false t ∧ (0 : ℚ) + 10 < t) :=
  ⟨by norm_num, le_rfl,
    (wait_deadline_spec (fun _ => ⟨CheckOutcome.incomplete, 0⟩) 10 3 1 0
      (by norm_num) le_rfl (fun j => le_rfl)).2.2
      (fun j => rfl) 4 (by norm_num)⟩

end Tmt

namespace Tmt

/-! ### SSH guest file transfer (`GuestSsh.push`/`pull`/`_check_rsync`,
tmt/steps/provision/__init__.py:763-890, 1014-1053)

Remote command execution is abstracted into an environment describing which
guest commands succeed; each `push`/`pull` call records the trace of guest
commands it issued.
-/

def DEFAULT_RSYNC_PUSH_OPTIONS : List String :=
  ["-s", "-R", "-r", "-z", "--links", "--safe-links", "--delete"]

def DEFAULT_RSYNC_PULL_OPTIONS : List String :=
  ["-s", "-R", "-r", "-z", "--links", "--safe-links", "--protect-args"]

inductive CheckRsyncOutcome where
  | alreadyInstalled
  | installed
  deriving Repr, DecidableEq

inductive PackageManager where
  | dnf
  | yum
  deriving Repr, DecidableEq

/-- Guest commands issued during a transfer, in order: the n-th rsync
transfer attempt of this call, the `rsync --version` probe, the
`dnf --version` probe, the `rpm-ostree --version` probe, and the install
command of the detected package manager (with the alternate-root-and-symlink
suffix on read-only images). -/
inductive GuestCmd where
  | rsyncTransfer (n : Nat)
  | rsyncProbe
  | dnfProbe
  | rpmOstreeProbe
  | installRsync (pm : PackageManager) (altRoot : Bool)
  deriving Repr, DecidableEq

inductive TransferError where
  | transferFailed (n : Nat)
  | installFailed
  deriving Repr, DecidableEq

/-- Which remote commands succeed on this guest during one transfer call. -/
structure SshTransferEnv where
  transferOk : Nat → Bool
  rsyncInstalled : Bool
  dnfPresent : Bool
  rpmOstreePresent : Bool
  installOk : Bool

/-- `GuestSsh._check_rsync` (tmt/steps/provision/__init__.py:1014-1053):
probe `rsync --version`; if it succeeds, report `ALREADY_INSTALLED`.
Otherwise detect the package manager (`dnf --version`, falling back to
`yum`), detect a read-only distro via `rpm-ostree --version` (installing
into `/root/pkg` and symlinking in that case), and install rsync.  A failed
install command raises its `RunError`. -/
def checkRsync (env : SshTransferEnv) :
    List GuestCmd × Except TransferError CheckRsyncOutcome :=
  if env.rsyncInstalled then
    ([.rsyncProbe], .ok .alreadyInstalled)
  else
    let pm : PackageManager := if env.dnfPresent then .dnf else .yum
    let trace : List GuestCmd :=
      [.rsyncProbe, .dnfProbe, .rpmOstreeProbe, .installRsync pm env.rpmOstreePresent]
    if env.installOk then (trace, .ok .installed) else (trace, .error .installFailed)

/-- Python truthiness of `options or DEFAULT`: `None` and the empty list are
falsy, so the module-level default list object itself is used in those
cases.  The first component records whether the result aliases the default
list. -/
def pyListOr (options : Option (List String)) (dflt : List String) :
    Bool × List String :=
  match options with
  | none => (true, dflt)
  | some [] => (true, dflt)
  | some l => (false, l)

/-- `GuestSsh.push` (tmt/steps/provision/__init__.py:763-823): one rsync
attempt; on `RunError`, run `_check_rsync` — if rsync was already installed
re-raise the original error, otherwise retry the transfer exactly once,
re-raising the second failure after logging a login diagnostic.  Returns
the rsync options used, the guest-command trace and the outcome. -/
def push (env : SshTransferEnv) (options : Option (List String)) :
    List String × List GuestCmd × Except TransferError Unit :=
  let used := (pyListOr options DEFAULT_RSYNC_PUSH_OPTIONS).2
  if env.transferOk 0 then
    (used, [.rsyncTransfer 0], .ok ())
  else
    match checkRsync env with
    | (ct, .ok .alreadyInstalled) =>
      (used, .rsyncTransfer 0 :: ct, .error (.transferFailed 0))
    | (ct, .ok .installed) =>
      if env.transferOk 1 then
        (used, .rsyncTransfer 0 :: (ct ++ [.rsyncTransfer 1]), .ok ())
      else
        (used, .rsyncTransfer 0 :: (ct ++ [.rsyncTransfer 1]),
          .error (.transferFailed 1))
    | (ct, .error e) => (used, .rsyncTransfer 0 :: ct, .error e)

/-- The mutable world visible to `pull`: the module-level
`DEFAULT_RSYNC_PULL_OPTIONS` list object and the guest's own fields
(abstract here — `pull` never writes them). -/
structure PullWorld (γ : Type) where
  defaultPullOptions : List String
  guest : γ

structure PullOutcome (γ : Type) where
  world : PullWorld γ
  usedOptions : List String
  trace : List GuestCmd
  result : Except TransferError Unit

/-- The option list `pull` ends up passing to rsync:
`options = options or DEFAULT_RSYNC_PULL_OPTIONS`, then
`options.extend(extend_options)` when `extend_options is not None`. -/
def pullUsedOptions {γ : Type} (w : PullWorld γ)
    (options extendOptions : Option (List String)) : List String :=
  match extendOptions with
  | none => (pyListOr options w.defaultPullOptions).2
  | some e => (pyListOr options w.defaultPullOptions).2 ++ e

/-- The world after `pull` prepared its options: when `options` was falsy,
the local name `options` aliases the module-level default list object, so
`options.extend(extend_options)` mutates `DEFAULT_RSYNC_PULL_OPTIONS` in
place.  The guest's own fields are never written. -/
def pullWorldAfter {γ : Type} (w : PullWorld γ)
    (options extendOptions : Option (List String)) : PullWorld γ :=
  match extendOptions with
  | none => w
  | some _ =>
    if (pyListOr options w.defaultPullOptions).1 then
      { defaultPullOptions := pullUsedOptions w options extendOptions,
        guest := w.guest }
    else w

/-- `GuestSsh.pull` (tmt/steps/provision/__init__.py:825-890):
`options = options or DEFAULT_RSYNC_PULL_OPTIONS` binds the module-level
list object itself when `options` is falsy, so the subsequent
`options.extend(extend_options)` mutates that shared default list in place.
Then the same attempt/check/retry sequence as `push`. -/
def pull {γ : Type} (w : PullWorld γ) (options extendOptions : Option (List String))
    (env : SshTransferEnv) : PullOutcome γ :=
  let used := pullUsedOptions w options extendOptions
  let w1 : PullWorld γ := pullWorldAfter w options extendOptions
  if env.transferOk 0 then
    ⟨w1, used, [.rsyncTransfer 0], .ok ()⟩
  else
    match checkRsync env with
    | (ct, .ok .alreadyInstalled) =>
      ⟨w1, used, .rsyncTransfer 0 :: ct, .error (.transferFailed 0)⟩
    | (ct, .ok .installed) =>
      if env.transferOk 1 then
        ⟨w1, used, .rsyncTransfer 0 :: (ct ++ [.rsyncTransfer 1]), .ok ()⟩
      else
        ⟨w1, used, .rsyncTransfer 0 :: (ct ++ [.rsyncTransfer 1]),
          .error (.transferFailed 1)⟩
    | (ct, .error e) => ⟨w1, used, .rsyncTransfer 0 :: ct, .error e⟩

/-- Number of rsync transfer attempts recorded in a trace. -/
def transferCount (l : List GuestCmd) : Nat :=
  l.countP fun c => match c with
    | .rsyncTransfer _ => true
    | _ => false

end Tmt

namespace Tmt

/-- In every branch, `pull` reports the world updated by the option
preparation and the prepared option list. -/
theorem pull_world_used {γ : Type} (w : PullWorld γ)
    (options extendOptions : Option (List String)) (env : SshTransferEnv) :
    (pull w options extendOptions env).world = pullWorldAfter w options extendOptions ∧
    (pull w options extendOptions env).usedOptions =
      pullUsedOptions w options extendOptions := by
  cases h0 : env.transferOk 0
  · cases hr : env.rsyncInstalled
    · cases hi : env.installOk
      · simp [pull, checkRsync, h0, hr, hi]
      · cases h1 : env.transferOk 1 <;> simp [pull, checkRsync, h0, hr, hi, h1]
    · simp [pull, checkRsync, h0, hr]
  · simp [pull, h0]

/-- C5: on a first rsync failure in `push()` or `pull()`, the guest is
probed for rsync; if rsync was already installed the original transfer
error is re-raised with no second transfer attempt; otherwise, rsync is
installed via the detected package manager (`dnf` when present, else `yum`)
and the transfer is retried exactly once, succeeding when the retry
succeeds; in every case a call issues at most two rsync transfers. -/
theorem rsync_retry_spec :
    (∀ (env : SshTransferEnv) (opts : Option (List String)),
      env.transferOk 0 = false → env.rsyncInstalled = true →
      push env opts = ((pyListOr opts DEFAULT_RSYNC_PUSH_OPTIONS).2,
        [.rsyncTransfer 0, .rsyncProbe], .error (.transferFailed 0))) ∧
    (∀ (env : SshTransferEnv) (opts : Option (List String)),
      env.transferOk 0 = false → env.rsyncInstalled = false →
      env.installOk = true → env.transferOk 1 = true →
      push env opts = ((pyListOr opts DEFAULT_RSYNC_PUSH_OPTIONS).2,
        [.rsyncTransfer 0, .rsyncProbe, .dnfProbe, .rpmOstreeProbe,
          .installRsync (if env.dnfPresent then .dnf else .yum) env.rpmOstreePresent,
          .rsyncTransfer 1], .ok ())) ∧
    (∀ (env : SshTransferEnv) (opts : Option (List String)),
      transferCount (push env opts).2.1 ≤ 2) ∧
    (∀ {γ : Type} (w : PullWorld γ) (opts ext : Option (List String))
      (env : SshTransferEnv),
      env.transferOk 0 = false → env.rsyncInstalled = true →
      pull w opts ext env = ⟨pullWorldAfter w opts ext, pullUsedOptions w opts ext,
        [.rsyncTransfer 0, .rsyncProbe], .error (.transferFailed 0)⟩) ∧
    (∀ {γ : Type} (w : PullWorld γ) (opts ext : Option (List String))
      (env : SshTransferEnv),
      env.transferOk 0 = false → env.rsyncInstalled = false →
      env.installOk = true → env.transferOk 1 = true →
      pull w opts ext env = ⟨pullWorldAfter w opts ext, pullUsedOptions w opts ext,
        [.rsyncTransfer 0, .rsyncProbe, .dnfProbe, .rpmOstreeProbe,
          .installRsync (if env.dnfPresent then .dnf else .yum) env.rpmOstreePresent,
          .rsyncTransfer 1], .ok ()⟩) ∧
    (∀ {γ : Type} (w : PullWorld γ) (opts ext : Option (List String))
      (env : SshTransferEnv),
      transferCount (pull w opts ext env).trace ≤ 2) := by
  refine ⟨?_, ?_, ?_, ?_, ?_, ?_⟩
  · intro env opts h0 hr
    simp [push, checkRsync, h0, hr]
  · intro env opts h0 hr hi h1
    simp [push, checkRsync, h0, hr, hi, h1]
  · intro env opts
    cases h0 : env.transferOk 0
    · cases hr : env.rsyncInstalled
      · cases hi : env.installOk
        · simp [push, checkRsync, h0, hr, hi, transferCount]
        · cases h1 : env.transferOk 1 <;>
            simp [push, checkRsync, h0, hr, hi, h1, transferCount]
      · simp [push, checkRsync, h0, hr, transferCount]
    · simp [push, h0, transferCount]
  · intro γ w opts ext env h0 hr
    simp [pull, checkRsync, h0, hr]
  · intro γ w opts ext env h0 hr hi h1
    simp [pull, checkRsync, h0, hr, hi, h1]
  · intro γ w opts ext env
    cases h0 : env.transferOk 0
    · cases hr : env.rsyncInstalled
      · cases hi : env.installOk
        · simp [pull, checkRsync, h0, hr, hi, transferCount]
        · cases h1 : env.transferOk 1 <;>
            simp [pull, checkRsync, h0, hr, hi, h1, transferCount]
      · simp [pull, checkRsync, h0, hr, transferCount]
    · simp [pull, h0, transferCount]

/-- Witness for C5: first attempt fails because rsync is absent, `dnf` is
detected, install succeeds, the single retry succeeds. -/
theorem rsync_retry_spec_witness :
    (let env : SshTransferEnv :=
      ⟨fun n => decide (n = 1), false, true, false, true⟩
    env.transferOk 0 = false ∧ env.rsyncInstalled = false ∧
    env.installOk = true ∧ env.transferOk 1 = true ∧
    push env none = (DEFAULT_RSYNC_PUSH_OPTIONS,
      [.rsyncTransfer 0, .rsyncProbe, .dnfProbe, .rpmOstreeProbe,
        .installRsync .dnf false, .rsyncTransfer 1], .ok ())) :=
  ⟨rfl, rfl, rfl, rfl,
    rsync_retry_spec.2.1 ⟨fun n => decide (n = 1), false, true, false, true⟩
      none rfl rfl rfl rfl⟩

/-- C9: `pull()` with no explicit `options` but a non-`None`
`extend_options` extends the module-level `DEFAULT_RSYNC_PULL_OPTIONS` list
object in place: the appended options persist in the default list, they are
used by the current call, and every subsequent `pull()` relying on the
default options observes them; no field of the guest itself is changed. -/
theorem pull_extend_mutates_default {γ : Type} (w : PullWorld γ)
    (e : List String) (env env2 : SshTransferEnv) :
    (pull w none (some e) env).world.defaultPullOptions =
      w.defaultPullOptions ++ e ∧
    (pull w none (some e) env).world.guest = w.guest ∧
    (pull w none (some e) env).usedOptions = w.defaultPullOptions ++ e ∧
    (pull (pull w none (some e) env).world none none env2).usedOptions =
      w.defaultPullOptions ++ e := by
  obtain ⟨hw, hu⟩ := pull_world_used w none (some e) env
  obtain ⟨hw2, hu2⟩ := pull_world_used (pull w none (some e) env).world none none env2
  refine ⟨?_, ?_, ?_, ?_⟩
  · rw [hw]; rfl
  · rw [hw]; rfl
  · rw [hu]; rfl
  · rw [hu2, hw]; rfl

end Tmt

namespace Tmt

/-! ### SSH guest reboot (`GuestSsh.reboot`, tmt/steps/provision/__init__.py:919-1003) -/

/-- `CONNECTION_TIMEOUT = 5 * 60` seconds. -/
def CONNECTION_TIMEOUT : ℚ := 300

def DEFAULT_REBOOT_COMMAND : String := "reboot"

/-- One `get_boot_time` call: `cat /proc/stat` succeeded and `btime` parsed,
or the remote execution failed with a `RunError` (connection down), or the
output had no `btime` line (a `ProvisionError`). -/
inductive BootProbe where
  | ok (btime : Nat)
  | connFail (rc : Int)
  | parseFail
  deriving Repr, DecidableEq

/-- Errors `reboot` can raise: `ProvisionError` (hard reboot unsupported, or
boot time unparsable), a propagated `RunError`, or the `GeneralError` from a
non-positive tick inside `wait`. -/
inductive RebootError where
  | provisionError
  | runError (rc : Int)
  | generalError
  deriving Repr, DecidableEq

/-- Guest behaviour during one `reboot` call: the outcome of the k-th
`get_boot_time` call (k = 0 is the pre-reboot fingerprint read), how long
the k-th polling attempt takes, and how executing a given reboot command
ends (`none` = clean exit, `some rc` = `RunError` with that return code). -/
structure RebootEnv where
  bootProbe : Nat → BootProbe
  probeDur : Nat → ℚ
  rebootCmd : String → Option Int

/-- The `check_boot_time` closure (tmt/steps/provision/__init__.py:973-986)
as a `wait` check: attempt `i` performs `get_boot_time` call `i + 1`; a
changed boot time is success, an unchanged one or a `RunError` raises
`WaitingIncomplete`, and a missing `btime` line lets the `ProvisionError`
propagate. -/
def rebootAttempts (env : RebootEnv) (b0 : Nat) :
    Nat → CheckAttempt RebootError Unit := fun i =>
  { outcome :=
      match env.bootProbe (i + 1) with
      | .ok t => if t ≠ b0 then .success () else .incomplete
      | .connFail _ => .incomplete
      | .parseFail => .raised .provisionError
    duration := env.probeDur i }

/-- Python `timeout = timeout or CONNECTION_TIMEOUT`: `None` and `0` are
falsy. -/
def pyNumOr (x : Option ℚ) (d : ℚ) : ℚ :=
  match x with
  | none => d
  | some t => if t = 0 then d else t

/-- `GuestSsh.reboot` (tmt/steps/provision/__init__.py:919-1003).  Hard
reboot fails immediately with a `ProvisionError`.  Otherwise: read the
pre-reboot boot-time fingerprint (errors propagate), issue the reboot
command — a `RunError` with return code 255 is the connection closing early
and is ignored, any other code propagates — then `wait` until the
fingerprint changes.  `WaitingTimedOutError` is caught and converted into a
`False` return value.  `none` marks fuel exhaustion of the embedded loop. -/
def reboot (env : RebootEnv) (hard : Bool) (command : Option String)
    (timeout : Option ℚ) (tick tickIncrease : ℚ) (fuel : Nat) :
    Option (Except RebootError Bool) :=
  if hard then some (.error .provisionError)
  else
    let cmd := command.getD DEFAULT_REBOOT_COMMAND
    match env.bootProbe 0 with
    | .connFail rc => some (.error (.runError rc))
    | .parseFail => some (.error .provisionError)
    | .ok b0 =>
      let cmdFailure : Option RebootError :=
        match env.rebootCmd cmd with
        | none => none
        | some rc => if rc = 255 then none else some (.runError rc)
      match cmdFailure with
      | some e => some (.error e)
      | none =>
        match wait (rebootAttempts env b0) (pyNumOr timeout CONNECTION_TIMEOUT)
            tick tickIncrease 0 fuel with
        | .success _ _ => some (.ok true)
        | .timedOut _ _ => some (.ok false)
        | .raised e _ => some (.error e)
        | .tickError => some (.error .generalError)
        | .fuelOut => none

/-- C6: `reboot(hard=True)` fails immediately with a `ProvisionError`; with
`hard=False`, a connection-drop `RunError` with return code 255 from the
reboot command itself is tolerated, and when the boot-time fingerprint read
from `/proc/stat` never changes within the timeout, `reboot()` returns
`False` — the `WaitingTimedOutError` is caught internally and no exception
escapes to the caller. -/
theorem reboot_spec (env : RebootEnv) (command : Option String)
    (timeout : Option ℚ) (tick tickIncrease : ℚ) :
    (∀ (hard : Bool) (fuel : Nat), hard = true →
      reboot env hard command timeout tick tickIncrease fuel =
        some (.error .provisionError)) ∧
    (∀ (b0 : Nat) (fuel : Nat),
      env.bootProbe 0 = .ok b0 →
      (env.rebootCmd (command.getD DEFAULT_REBOOT_COMMAND) = none ∨
        env.rebootCmd (command.getD DEFAULT_REBOOT_COMMAND) = some 255) →
      (∀ i, 1 ≤ i → env.bootProbe i = .ok b0 ∨ ∃ rc, env.bootProbe i = .connFail rc) →
      0 < tick → 1 ≤ tickIncrease → (∀ j, 0 ≤ env.probeDur j) →
      pyNumOr timeout CONNECTION_TIMEOUT < (fuel : ℚ) * tick →
      reboot env false command timeout tick tickIncrease (fuel + 1) =
        some (.ok false)) := by
  constructor
  · intro hard fuel hh
    subst hh
    rfl
  · intro b0 fuel hb0 hcmd hsame htick hti hdur hfu
    have hinc : ∀ j, (rebootAttempts env b0 j).outcome = .incomplete := by
      intro j
      rcases hsame (j + 1) (by omega) with h | ⟨rc, h⟩ <;>
        simp [rebootAttempts, h]
    obtain ⟨t, hrun, _⟩ := wait_always_incomplete (rebootAttempts env b0)
      (pyNumOr timeout CONNECTION_TIMEOUT) tick tickIncrease 0 fuel
      htick hti hdur hinc hfu
    rcases hcmd with hc | hc <;>
      simp [reboot, hb0, hc, hrun]

/-- Witness for C6: both branches at a concrete guest whose fingerprint
never changes. -/
theorem reboot_spec_witness :
    (let env : RebootEnv := ⟨fun _ => .ok 7, fun _ => 0, fun _ => some 255⟩
    reboot env true none none 5 1 3 = some (.error .provisionError) ∧
    reboot env false none none 5 1 (61 + 1) = some (.ok false)) := by
  constructor
  · exact (reboot_spec ⟨fun _ => .ok 7, fun _ => 0, fun _ => some 255⟩
      none none 5 1).1 true 3 rfl
  · exact (reboot_spec ⟨fun _ => .ok 7, fun _ => 0, fun _ => some 255⟩
      none none 5 1).2 7 61 rfl (Or.inr rfl)
      (fun i _ => Or.inl rfl) (by norm_num) le_rfl (fun j => le_rfl)
      (by norm_num [pyNumOr, CONNECTION_TIMEOUT])

end Tmt

namespace Tmt

/-! ### Provision step execution (`Provision.go`,
tmt/steps/provision/__init__.py:1268-1319)

The step's status accessor and the base `Step.go`/`Step.actions` helpers
live in `tmt/steps/__init__.py`, outside the analysed sources; the status
is therefore carried as an explicit value, and `actions()` is modelled
from the spec (§4.3): ad hoc Action phases run via `phase.go()` with no
guest coupling.
-/

inductive StepStatus where
  | todo
  | done
  deriving Repr, DecidableEq

/-- How one `phase.go()` call ends: normally, with a
`RunError`/`ProvisionError` (logged via `fail` and re-raised), or with a
`SystemExit`/`SpecificationError` (deliberate stop: the step data is not
saved).  A failure of `guest.details()` lands in the same `except` clause
as `phase.go()` and is folded into the same outcome. -/
inductive PhaseGoResult where
  | ok
  | errRun
  | errExit
  deriving Repr, DecidableEq

/-- One phase of the provision step: an ad hoc Action or a
ProvisionPlugin, the outcome of its `go()`, and — for plugins — whether
`phase.guest()` returns a guest afterwards and whether that guest
`is_ready`. -/
structure PhasePlan where
  isAction : Bool
  goResult : PhaseGoResult
  guestReady : Option Bool
  deriving Repr, DecidableEq

/-- Observable outcome of one `Provision.go()` invocation. -/
structure GoOutcome where
  phasesRun : Nat
  statusReported : Bool
  finalStatus : StepStatus
  guests : List Bool
  saved : Bool
  error : Option PhaseGoResult
  deriving Repr, DecidableEq

/-- Modelled from the spec: `Step.actions` (not under the analysed
sources) runs the ad hoc Action phases of the step, each via `phase.go()`.
Returns how many Action phases were invoked. -/
def actionsRun (phases : List PhasePlan) : Nat :=
  (phases.filter fun p => p.isAction).length

/-- The phase loop of `Provision.go` (tmt/steps/provision/__init__.py:
1284-1305): run each phase; a plugin's guest has `details()` invoked; the
`finally` clause records a guest that reached a ready state (or dry-run)
even when the phase raised; a raised error stops the loop.  Returns the
number of `phase.go()` calls, the recorded guest readiness flags, and the
first error. -/
def goPhases (dry : Bool) : List PhasePlan → Nat × List Bool × Option PhaseGoResult
  | [] => (0, [], none)
  | p :: rest =>
    let recorded : List Bool :=
      if p.isAction then []
      else
        match p.guestReady with
        | some r => if r || dry then [r] else []
        | none => []
    match p.goResult with
    | .ok =>
      let t := goPhases dry rest
      (t.1 + 1, recorded ++ t.2.1, t.2.2)
    | e => (1, recorded, some e)

/-- `Provision.go` (tmt/steps/provision/__init__.py:1268-1319).  With
status already `done` it reports the status, gives the summary, runs the
ad hoc actions and returns — no plugin phase is executed and nothing is
saved.  Otherwise the guest list is reset and all phases run; on normal
completion the status becomes `done` and the step is saved; a
`RunError`/`ProvisionError` re-raises after saving whatever guests were
recorded; a `SystemExit`/`SpecificationError` skips the save. -/
def provisionGo (status : StepStatus) (guests0 : List Bool)
    (phases : List PhasePlan) (dry : Bool) : GoOutcome :=
  if status = .done then
    { phasesRun := actionsRun phases
      statusReported := true
      finalStatus := .done
      guests := guests0
      saved := false
      error := none }
  else
    let t := goPhases dry phases
    match t.2.2 with
    | none =>
      { phasesRun := t.1, statusReported := false, finalStatus := .done
        guests := t.2.1, saved := true, error := none }
    | some .errRun =>
      { phasesRun := t.1, statusReported := false, finalStatus := .todo
        guests := t.2.1, saved := true, error := some .errRun }
    | some e =>
      { phasesRun := t.1, statusReported := false, finalStatus := .todo
        guests := t.2.1, saved := false, error := some e }

/-- C3 counterexample: a done step holding one ad hoc Action phase — the
done branch of `Provision.go` still calls `self.actions()`
(tmt/steps/provision/__init__.py:1276), so that phase runs one additional
time, refuting "executes its phases zero additional times" as universally
stated. -/
theorem provision_go_done_action_counterexample :
    (provisionGo .done [] [PhasePlan.mk true .ok none] false).phasesRun = 1 ∧
    ¬ (provisionGo .done [] [PhasePlan.mk true .ok none] false).phasesRun = 0 := by
  decide

/-- C3 (amended): invoking `go()` on a Provision step whose status is
already `done` (no force flag reset it back to `todo`) executes its plugin
phases zero additional times — it reports its status, re-runs only the ad
hoc Action phases (command-line login/reboot requests) and returns, leaving
status and guest list untouched and saving nothing; in particular a step
with no Action phases executes zero phases, so the second invocation of a
completed step is idempotent; and a run from `todo` that completes without
error ends with status `done`. -/
theorem provision_go_done_idempotent (guests0 : List Bool)
    (phases : List PhasePlan) (dry : Bool) :
    provisionGo .done guests0 phases dry =
      { phasesRun := actionsRun phases, statusReported := true
        finalStatus := .done, guests := guests0, saved := false
        error := none } ∧
    ((∀ p ∈ phases, p.isAction = false) →
      (provisionGo .done guests0 phases dry).phasesRun = 0) ∧
    ((goPhases dry phases).2.2 = none →
      (provisionGo .todo guests0 phases dry).finalStatus = .done) := by
  refine ⟨rfl, ?_, ?_⟩
  · intro hnoact
    have hfilter : phases.filter (fun p => p.isAction) = [] := by
      rw [List.filter_eq_nil_iff]
      intro p hp
      simp [hnoact p hp]
    simp [provisionGo, actionsRun, hfilter]
  · intro hok
    simp [provisionGo, hok]

/-- Witness for C3 at a two-plugin-phase step with no Action phases. -/
theorem provision_go_done_idempotent_witness :
    provisionGo .done [true] [PhasePlan.mk false .ok (some true),
        PhasePlan.mk false .ok (some false)] false =
      { phasesRun := actionsRun [PhasePlan.mk false .ok (some true),
          PhasePlan.mk false .ok (some false)]
        statusReported := true, finalStatus := .done
        guests := [true], saved := false, error := none } ∧
    (provisionGo .done [true] [PhasePlan.mk false .ok (some true),
        PhasePlan.mk false .ok (some false)] false).phasesRun = 0 ∧
    (provisionGo .todo [true] [PhasePlan.mk false .ok (some true),
        PhasePlan.mk false .ok (some false)] false).finalStatus = .done :=
  ⟨(provision_go_done_idempotent [true]
      [PhasePlan.mk false .ok (some true), PhasePlan.mk false .ok (some false)]
      false).1,
    (provision_go_done_idempotent [true]
      [PhasePlan.mk false .ok (some true), PhasePlan.mk false .ok (some false)]
      false).2.1 (by decide),
    (provision_go_done_idempotent [true]
      [PhasePlan.mk false .ok (some true), PhasePlan.mk false .ok (some false)]
      false).2.2 rfl⟩

end Tmt

namespace Tmt

/-! ### Guest data persistence (`GuestData`/`GuestSshData`,
tmt/steps/provision/__init__.py:53-64, 525-545; `SerializableContainer`,
tmt/utils.py:1894-2037)

Serialized values are YAML scalars/lists; the dataclass field names are
represented by an inductive key type.  Neither `GuestData` nor
`GuestSshData` declares serialize/unserialize callbacks, so
`to_serialized` is `to_dict` plus the `__class__` tag and
`from_serialized` is `cls(**serialized)` after popping the tag.
-/

inductive SVal where
  | nil
  | str (s : String)
  | nat (n : Nat)
  | strList (l : List String)
  deriving Repr, DecidableEq, BEq

inductive FieldKey where
  | role
  | guest
  | port
  | user
  | key
  | password
  | ssh_option
  deriving Repr, DecidableEq, BEq

/-- The `{module, name}` class tag written by `to_serialized`; the two
guest data classes of the analysed sources form the closed world. -/
inductive ClassTag where
  | guestData
  | guestSshData
  deriving Repr, DecidableEq, BEq

/-- A serialized container: the optional `__class__` tag plus the field
mapping. -/
structure Serialized where
  classTag : Option ClassTag
  fields : List (FieldKey × SVal)
  deriving Repr, DecidableEq

inductive DecodeErr where
  | missingClass
  | unexpectedKey
  | badValue
  deriving Repr, DecidableEq

/-- `GuestData` (tmt/steps/provision/__init__.py:53-64): `role` and
`guest`, both defaulting to `None`. -/
structure GuestData where
  role : Option String
  guest : Option String
  deriving Repr, DecidableEq

/-- `GuestSshData` (tmt/steps/provision/__init__.py:525-545): adds `port`,
`user`, `key` (default `[]`), `password` and `ssh_option` (default `[]`). -/
structure GuestSshData where
  role : Option String
  guest : Option String
  port : Option Nat
  user : Option String
  key : List String
  password : Option String
  ssh_option : List String
  deriving Repr, DecidableEq

/-- A `Guest` object's observable attributes after `load()`
(tmt/steps/provision/__init__.py:67-110). -/
structure Guest where
  role : Option String
  guest : Option String
  deriving Repr, DecidableEq

/-- A `GuestSsh` object's observable attributes after `load()`
(tmt/steps/provision/__init__.py:548-570). -/
structure GuestSsh where
  role : Option String
  guest : Option String
  port : Option Nat
  user : Option String
  key : List String
  password : Option String
  ssh_option : List String
  deriving Repr, DecidableEq

def encOptStr : Option String → SVal
  | none => .nil
  | some s => .str s

def decOptStr : SVal → Except DecodeErr (Option String)
  | .nil => .ok none
  | .str s => .ok (some s)
  | _ => .error .badValue

def encOptNat : Option Nat → SVal
  | none => .nil
  | some n => .nat n

def decOptNat : SVal → Except DecodeErr (Option Nat)
  | .nil => .ok none
  | .nat n => .ok (some n)
  | _ => .error .badValue

def decStrList : SVal → Except DecodeErr (List String)
  | .strList l => .ok l
  | _ => .error .badValue

/-- `SerializableContainer.extract_from` for `GuestData` (tmt/utils.py:
1914-1926): start from the defaults and copy each attribute that is not
`None`; `None` attributes leave the default (`None`) in place. -/
def guestDataExtractFrom (g : Guest) : GuestData :=
  { role := if g.role.isSome then g.role else none
    guest := if g.guest.isSome then g.guest else none }

/-- `extract_from` for `GuestSshData`: the list-valued attributes (`key`,
`ssh_option`) are Python lists, never `None`, hence always copied; an
empty list coincides with the `default_factory=list` default anyway. -/
def guestSshDataExtractFrom (g : GuestSsh) : GuestSshData :=
  { role := if g.role.isSome then g.role else none
    guest := if g.guest.isSome then g.guest else none
    port := if g.port.isSome then g.port else none
    user := if g.user.isSome then g.user else none
    key := g.key
    password := if g.password.isSome then g.password else none
    ssh_option := g.ssh_option }

/-- `to_serialized` (tmt/utils.py:1933-1959): the field dictionary plus the
`__class__` tag. -/
def guestDataToSerialized (d : GuestData) : Serialized :=
  { classTag := some .guestData
    fields := [(.role, encOptStr d.role), (.guest, encOptStr d.guest)] }

def guestSshDataToSerialized (d : GuestSshData) : Serialized :=
  { classTag := some .guestSshData
    fields := [(.role, encOptStr d.role), (.guest, encOptStr d.guest),
      (.port, encOptNat d.port), (.user, encOptStr d.user),
      (.key, .strList d.key), (.password, encOptStr d.password),
      (.ssh_option, .strList d.ssh_option)] }

/-- `from_serialized` for `GuestData` (tmt/utils.py:1961-1989): pop the
`__class__` tag if present, then `cls(**serialized)` — a missing field
falls back to the dataclass default, an unexpected field is a
`TypeError`. -/
def guestDataFromSerialized (s : Serialized) : Except DecodeErr GuestData :=
  if s.fields.all (fun kv => kv.1 == .role || kv.1 == .guest) then do
    let role ← match s.fields.lookup .role with
      | none => .ok none
      | some v => decOptStr v
    let guest ← match s.fields.lookup .guest with
      | none => .ok none
      | some v => decOptStr v
    .ok { role := role, guest := guest }
  else .error .unexpectedKey

def guestSshDataFromSerialized (s : Serialized) : Except DecodeErr GuestSshData :=
  if s.fields.all (fun kv => kv.1 == .role || kv.1 == .guest || kv.1 == .port ||
      kv.1 == .user || kv.1 == .key || kv.1 == .password ||
      kv.1 == .ssh_option) then do
    let role ← match s.fields.lookup .role with
      | none => .ok none
      | some v => decOptStr v
    let guest ← match s.fields.lookup .guest with
      | none => .ok none
      | some v => decOptStr v
    let port ← match s.fields.lookup .port with
      | none => .ok none
      | some v => decOptNat v
    let user ← match s.fields.lookup .user with
      | none => .ok none
      | some v => decOptStr v
    let key ← match s.fields.lookup .key with
      | none => .ok []
      | some v => decStrList v
    let password ← match s.fields.lookup .password with
      | none => .ok none
      | some v => decOptStr v
    let ssh_option ← match s.fields.lookup .ssh_option with
      | none => .ok []
      | some v => decStrList v
    .ok { role := role, guest := guest, port := port, user := user,
          key := key, password := password, ssh_option := ssh_option }
  else .error .unexpectedKey

/-- The restored container, tagged with its concrete class. -/
inductive AnyGuestData where
  | plain (d : GuestData)
  | ssh (d : GuestSshData)
  deriving Repr, DecidableEq

/-- `SerializableContainer.unserialize` (tmt/utils.py:1998-2037): requires
the `__class__` tag, resolves the class and delegates to its
`from_serialized`. -/
def unserialize (s : Serialized) : Except DecodeErr AnyGuestData :=
  match s.classTag with
  | none => .error .missingClass
  | some .guestData => (guestDataFromSerialized s).map .plain
  | some .guestSshData => (guestSshDataFromSerialized s).map .ssh

/-- `Guest.load` via `data.inject_to(self)` (tmt/steps/provision/
__init__.py:151-164, tmt/utils.py:1906-1912): every key of the container
becomes an attribute. -/
def guestLoad (d : GuestData) : Guest :=
  { role := d.role, guest := d.guest }

def guestSshLoad (d : GuestSshData) : GuestSsh :=
  { role := d.role, guest := d.guest, port := d.port, user := d.user,
    key := d.key, password := d.password, ssh_option := d.ssh_option }

/-- Waking a guest from restored data constructs the matching guest class
and loads the data into it. -/
def wakeFromData : AnyGuestData → Guest ⊕ GuestSsh
  | .plain d => .inl (guestLoad d)
  | .ssh d => .inr (guestSshLoad d)

/-- C8: the round-trip law — `save()` → `to_serialized` → `unserialize` →
`load()` into a fresh guest reproduces all observable fields: `role` and
`guest` for plain guests, plus `port`, `user`, `key`, `password` and
`ssh_option` for SSH guests. -/
theorem guest_save_load_roundtrip :
    (∀ g : Guest,
      (unserialize (guestDataToSerialized (guestDataExtractFrom g))).map
        wakeFromData = .ok (.inl g)) ∧
    (∀ g : GuestSsh,
      (unserialize (guestSshDataToSerialized (guestSshDataExtractFrom g))).map
        wakeFromData = .ok (.inr g)) := by
  constructor
  · rintro ⟨role, guest⟩
    rcases role <;> rcases guest <;> rfl
  · rintro ⟨role, guest, port, user, key, password, ssh_option⟩
    rcases role <;> rcases guest <;> rcases port <;> rcases user <;>
      rcases password <;> rfl

end Tmt

namespace Tmt

/-! ### Reboot request handling (`ExecuteInternal._handle_reboot`,
tmt/steps/execute/internal.py:267-313)

The reboot-request marker file holds JSON with optional `command` and
`timeout` keys; its parsed content is a key/value list of JSON values.
-/

inductive JVal where
  | jstr (s : String)
  | jnum (n : Int)
  | jnull
  deriving Repr, DecidableEq

inductive PyErr where
  | typeError
  | valueError
  deriving Repr, DecidableEq

/-- `dict.get`: `None` for a missing key. -/
def jget (d : List (String × JVal)) (k : String) : Option JVal :=
  d.lookup k

/-- Python truthiness of `reboot_data.get('command')`: `None`, JSON null,
the empty string and zero are falsy. -/
def jTruthy : Option JVal → Bool
  | none => false
  | some .jnull => false
  | some (.jstr s) => !(s == "")
  | some (.jnum n) => !(n == 0)

/-- `if reboot_data.get('command'): try: reboot_command =
ShellScript(reboot_data.get('command')) except TypeError: pass` —
a truthy non-string raises `TypeError` inside the guard, which is caught,
leaving the command at `None`. -/
def parseRebootCommand (v : Option JVal) : Option String :=
  if jTruthy v then
    match v with
    | some (.jstr s) => some s
    | _ => none
  else none

/-- Decimal digits of Python's `int(str)`. -/
def digitsToNat (cs : List Char) : Option Nat :=
  match cs with
  | [] => none
  | _ =>
    if cs.all (fun c => c.isDigit) then
      some (cs.foldl (fun a c => a * 10 + (c.toNat - 48)) 0)
    else none

/-- Python `int(str)`: an optional sign followed by decimal digits;
anything else raises `ValueError`. -/
def pyIntOfString (s : String) : Option Int :=
  match s.data with
  | '-' :: rest => (digitsToNat rest).map (fun n => -(n : Int))
  | '+' :: rest => (digitsToNat rest).map (fun n => (n : Int))
  | cs => (digitsToNat cs).map (fun n => (n : Int))

/-- Python `int(x)`: an `int` passes through, a string parses or raises
`ValueError`, while `None` (missing key or JSON null) raises `TypeError`. -/
def pyInt : Option JVal → Except PyErr Int
  | none => .error .typeError
  | some .jnull => .error .typeError
  | some (.jnum n) => .ok n
  | some (.jstr s) =>
    match pyIntOfString s with
    | some n => .ok n
    | none => .error .valueError

inductive HandleErr where
  | typeError
  | runError
  | provisionError
  | rebootTimeout
  deriving Repr, DecidableEq

/-- How one `guest.reboot(...)` call ends. -/
inductive GuestRebootResp where
  | returns (b : Bool)
  | raisesRun
  | raisesProvision
  deriving Repr, DecidableEq

/-- The guest's reboot behaviour: the soft call receives the parsed command
and timeout; the hard fallback only the timeout. -/
structure RebootGuest where
  soft : Option String → Option Int → GuestRebootResp
  hard : Option Int → GuestRebootResp

/-- The successful outcome of `_handle_reboot`: its return value, the
test's reboot counter afterwards, and the arguments the soft
`guest.reboot` call received (`none`/`none` means the guest falls back to
its default command and timeout). -/
structure HandleOutcome where
  returnValue : Bool
  rebootCount : Nat
  softCall : Option (Option String × Option Int)
  deriving Repr, DecidableEq

/-- `ExecuteInternal._handle_reboot` (tmt/steps/execute/internal.py:
267-313).  If the marker file exists: increment the reboot counter, parse
`command` (a `TypeError` from a truthy non-string is caught) and `timeout`
— `int(...)` guarded by `except ValueError` only, so the `TypeError` from
a missing or null `timeout` propagates — remove the marker, push test
data, call `guest.reboot(command=..., timeout=...)`; a `RunError` is fatal
(logged, re-raised), a `ProvisionError` downgrades to a hard reboot; a
reboot that reports `False` raises `RebootTimeoutError`. -/
def handleReboot (markerPresent : Bool) (content : List (String × JVal))
    (count : Nat) (g : RebootGuest) : Except HandleErr HandleOutcome :=
  if markerPresent then
    let count1 := count + 1
    let command := parseRebootCommand (jget content "command")
    let timeoutParse : Except HandleErr (Option Int) :=
      match pyInt (jget content "timeout") with
      | .ok n => .ok (some n)
      | .error .valueError => .ok none
      | .error .typeError => .error .typeError
    match timeoutParse with
    | .error e => .error e
    | .ok timeout =>
      let rebooted : Except HandleErr Bool :=
        match g.soft command timeout with
        | .returns b => .ok b
        | .raisesRun => .error .runError
        | .raisesProvision =>
          match g.hard timeout with
          | .returns b => .ok b
          | .raisesRun => .error .runError
          | .raisesProvision => .error .provisionError
      match rebooted with
      | .error e => .error e
      | .ok b =>
        if b then .ok ⟨true, count1, some (command, timeout)⟩
        else .error .rebootTimeout
  else .ok ⟨false, count, none⟩

/-- C2 (evaluation at the failing input): a reboot-request marker whose
JSON content has neither `command` nor `timeout` — or carries JSON null
for `timeout` — makes `_handle_reboot` raise an uncaught `TypeError` from
`int(None)` instead of falling back to the defaults, even against a guest
whose reboot always succeeds; only a malformed *string* timeout is
gracefully ignored (counter incremented by one, reboot invoked with the
default command and timeout). -/
theorem handle_reboot_missing_timeout_bug :
    handleReboot true [] 0
      ⟨fun _ _ => .returns true, fun _ => .returns true⟩ = .error .typeError ∧
    handleReboot true [("command", .jnull), ("timeout", .jnull)] 0
      ⟨fun _ _ => .returns true, fun _ => .returns true⟩ = .error .typeError ∧
    handleReboot true [("timeout", .jstr "abc")] 0
      ⟨fun _ _ => .returns true, fun _ => .returns true⟩ =
      .ok ⟨true, 1, some (none, none)⟩ := by
  refine ⟨rfl, rfl, ?_⟩
  have habc : pyIntOfString "abc" = none := by decide
  simp [handleReboot, jget, pyInt, parseRebootCommand, jTruthy, List.lookup, habc]

end Tmt

namespace Tmt

/-! ### The test loop (`ExecuteInternal._run_tests`,
tmt/steps/execute/internal.py:332-426)

What one execution of a test contributes is abstracted into a behaviour
function indexed by the test's position and by how many times that
position has already run (reboots re-run the same index).
-/

inductive ResultOutcome where
  | pass
  | fail
  | error
  | warn
  | info
  deriving Repr, DecidableEq

inductive RNote where
  | aborted
  | rebootTimeout
  deriving Repr, DecidableEq

structure TestResult where
  outcome : ResultOutcome
  note : Option RNote
  deriving Repr, DecidableEq

/-- How the reboot check after one execution of a test goes:
no marker file, `_handle_reboot` returned `True` (the loop `continue`s),
`RebootTimeoutError` was raised and caught, or a fatal error
(`RunError` from a custom reboot command) propagated. -/
inductive RebootBehavior where
  | notRequested
  | success
  | timedOut
  | fatal
  deriving Repr, DecidableEq

/-- One execution of one test: the results `check()` produced, what the
reboot handling did, and whether the abort-marker file exists afterwards. -/
structure TestRun where
  results : List TestResult
  reboot : RebootBehavior
  abortAfter : Bool

/-- Loop state: current test index, how many times this index has already
executed (reboot re-runs), the accumulated `self._results`, the trace of
(test index, execution number) pairs actually executed, and the leaked
`result` loop variable used by the exit-first condition. -/
structure LoopState where
  index : Nat
  attempt : Nat
  collected : List TestResult
  executed : List (Nat × Nat)
  lastResult : Option TestResult
  deriving Repr, DecidableEq

inductive LoopExit where
  | finished
  | aborted
  | exitFirstStop
  | fatalErr
  | fuelOut
  deriving Repr, DecidableEq

/-- The reboot-timeout `except` clause (tmt/steps/execute/internal.py:
384-387): every result of the test becomes `ERROR` with note
`reboot timeout`. -/
def annotateRebootTimeout (rs : List TestResult) : List TestResult :=
  rs.map fun _ => ⟨.error, some .rebootTimeout⟩

/-- The abort annotation (tmt/steps/execute/internal.py:388-392): all
results of the test get note `aborted`. -/
def annotateAborted (rs : List TestResult) : List TestResult :=
  rs.map fun r => ⟨r.outcome, some .aborted⟩

/-- The tail of one loop iteration after reboot handling fell through
(tmt/steps/execute/internal.py:388-406): annotate on abort, extend
`self._results`, update the leaked `result` variable, then `break` on
abort, `break` on exit-first with a non-pass/info last result, else
advance to the next test. -/
def iterTail (exitFirst : Bool) (st : LoopState) (results : List TestResult)
    (abort : Bool) : LoopState ⊕ (LoopState × LoopExit) :=
  let annotated := if abort then annotateAborted results else results
  let lastR := match annotated.getLast? with
    | some r => some r
    | none => st.lastResult
  let st2 : LoopState :=
    { st with collected := st.collected ++ annotated, lastResult := lastR }
  let lastFailed : Bool := match lastR with
    | some r => decide (r.outcome ≠ .pass ∧ r.outcome ≠ .info)
    | none => false
  if abort then .inr (st2, .aborted)
  else if exitFirst && lastFailed then .inr (st2, .exitFirstStop)
  else .inl { st2 with index := st.index + 1, attempt := 0 }

/-- The `while index < len(tests)` loop of `_run_tests`
(tmt/steps/execute/internal.py:349-406): execute the current test, then —
if `_will_reboot` — handle the reboot: a successful reboot `continue`s at
the same index without touching `self._results`; a reboot timeout
annotates the results and falls through; a fatal reboot error propagates.
Otherwise the abort/exit-first tail runs. -/
def runLoop (behave : Nat → Nat → TestRun) (numTests : Nat) (exitFirst : Bool) :
    Nat → LoopState → LoopState × LoopExit
  | 0, st => (st, .fuelOut)
  | fuel + 1, st =>
    if st.index < numTests then
      let tr := behave st.index st.attempt
      let st1 : LoopState :=
        { st with executed := st.executed ++ [(st.index, st.attempt)] }
      match tr.reboot with
      | .success =>
        runLoop behave numTests exitFirst fuel
          { st1 with attempt := st.attempt + 1 }
      | .fatal => (st1, .fatalErr)
      | .timedOut =>
        match iterTail exitFirst st1 (annotateRebootTimeout tr.results)
            tr.abortAfter with
        | .inl st2 => runLoop behave numTests exitFirst fuel st2
        | .inr r => r
      | .notRequested =>
        match iterTail exitFirst st1 tr.results tr.abortAfter with
        | .inl st2 => runLoop behave numTests exitFirst fuel st2
        | .inr r => r
    else (st, .finished)

end Tmt

namespace Tmt

/-- Every result coming out of the abort annotation carries note
`aborted`. -/
theorem annotateAborted_note (rs : List TestResult) :
    ∀ r ∈ annotateAborted rs, r.note = some .aborted := by
  intro r hr
  rw [annotateAborted] at hr
  obtain ⟨a, _, rfl⟩ := List.mem_map.mp hr
  rfl

/-- C7: when the abort-marker file is present after a test (and no
successful reboot re-ran it), all results collected for that test are
annotated with note `aborted`, they are still appended to the step's
result list, and the loop stops with a break — the executed trace gains
only this one test execution and the loop exits as aborted, so no
subsequent test runs. -/
theorem abort_breaks_loop (behave : Nat → Nat → TestRun) (numTests : Nat)
    (exitFirst : Bool) (fuel : Nat) (st : LoopState)
    (hidx : st.index < numTests)
    (hrb : (behave st.index st.attempt).reboot = .notRequested ∨
      (behave st.index st.attempt).reboot = .timedOut)
    (habort : (behave st.index st.attempt).abortAfter = true) :
    (runLoop behave numTests exitFirst (fuel + 1) st).2 = .aborted ∧
    (runLoop behave numTests exitFirst (fuel + 1) st).1.collected =
      st.collected ++ annotateAborted
        (if (behave st.index st.attempt).reboot = .timedOut then
          annotateRebootTimeout (behave st.index st.attempt).results
        else (behave st.index st.attempt).results) ∧
    (∀ r ∈ annotateAborted
        (if (behave st.index st.attempt).reboot = .timedOut then
          annotateRebootTimeout (behave st.index st.attempt).results
        else (behave st.index st.attempt).results), r.note = some .aborted) ∧
    (runLoop behave numTests exitFirst (fuel + 1) st).1.executed =
      st.executed ++ [(st.index, st.attempt)] := by
  rcases hrb with h | h
  · refine ⟨?_, ?_, annotateAborted_note _, ?_⟩ <;>
      simp [runLoop, hidx, h, iterTail, habort]
  · refine ⟨?_, ?_, annotateAborted_note _, ?_⟩ <;>
      simp [runLoop, hidx, h, iterTail, habort]

/-- Witness for C7: a single aborting test with one passing result. -/
theorem abort_breaks_loop_witness :
    (0 : Nat) < 2 ∧
    ((fun _ _ => (⟨[⟨.pass, none⟩], .notRequested, true⟩ : TestRun)) 0 0).reboot
        = .notRequested ∧
    ((runLoop (fun _ _ => ⟨[⟨.pass, none⟩], .notRequested, true⟩) 2 false (5 + 1)
        ⟨0, 0, [], [], none⟩).2 = .aborted ∧
      (runLoop (fun _ _ => ⟨[⟨.pass, none⟩], .notRequested, true⟩) 2 false (5 + 1)
        ⟨0, 0, [], [], none⟩).1.collected =
        [] ++ annotateAborted
          (if ((fun _ _ => (⟨[⟨.pass, none⟩], .notRequested, true⟩ : TestRun)) 0 0).reboot
              = RebootBehavior.timedOut then
            annotateRebootTimeout [⟨.pass, none⟩]
          else [⟨.pass, none⟩]) ∧
      (∀ r ∈ annotateAborted
          (if ((fun _ _ => (⟨[⟨.pass, none⟩], .notRequested, true⟩ : TestRun)) 0 0).reboot
              = RebootBehavior.timedOut then
            annotateRebootTimeout [⟨.pass, none⟩]
          else [⟨.pass, none⟩]), r.note = some .aborted) ∧
      (runLoop (fun _ _ => ⟨[⟨.pass, none⟩], .notRequested, true⟩) 2 false (5 + 1)
        ⟨0, 0, [], [], none⟩).1.executed = [] ++ [(0, 0)]) :=
  ⟨by decide, rfl,
    abort_breaks_loop (fun _ _ => ⟨[⟨.pass, none⟩], .notRequested, true⟩) 2
      false 5 ⟨0, 0, [], [], none⟩ (by decide) (Or.inl rfl) rfl⟩

/-- C10: a test whose reboot request was handled successfully makes the
loop `continue` at the same index — the pre-reboot results are never
appended to the step's result list and the same test re-executes; and when
the post-reboot execution finishes with no further reboot, no abort and no
exit-first stop, only that final execution's results are recorded before
the loop advances. -/
theorem reboot_success_discards_and_reruns (behave : Nat → Nat → TestRun)
    (numTests : Nat) (exitFirst : Bool) (fuel : Nat) (st : LoopState)
    (hidx : st.index < numTests)
    (hrb : (behave st.index st.attempt).reboot = .success) :
    runLoop behave numTests exitFirst (fuel + 1) st =
      runLoop behave numTests exitFirst fuel
        { index := st.index, attempt := st.attempt + 1,
          collected := st.collected,
          executed := st.executed ++ [(st.index, st.attempt)],
          lastResult := st.lastResult } ∧
    ((behave st.index (st.attempt + 1)).reboot = .notRequested →
      (behave st.index (st.attempt + 1)).abortAfter = false →
      exitFirst = false →
      ∃ st2, runLoop behave numTests exitFirst (fuel + 1 + 1) st =
        runLoop behave numTests exitFirst fuel st2 ∧
        st2.index = st.index + 1 ∧ st2.attempt = 0 ∧
        st2.collected = st.collected ++ (behave st.index (st.attempt + 1)).results ∧
        st2.executed = st.executed ++
          [(st.index, st.attempt), (st.index, st.attempt + 1)]) := by
  constructor
  · simp [runLoop, hidx, hrb]
  · intro h2rb h2ab hef
    subst hef
    refine ⟨⟨st.index + 1, 0,
      st.collected ++ (behave st.index (st.attempt + 1)).results,
      (st.executed ++ [(st.index, st.attempt)]) ++ [(st.index, st.attempt + 1)],
      match ((behave st.index (st.attempt + 1)).results).getLast? with
        | some r => some r
        | none => st.lastResult⟩, ?_, rfl, rfl, rfl, ?_⟩
    · simp [runLoop, hidx, hrb, h2rb, h2ab, iterTail]
    · simp

end Tmt

namespace Tmt

/-- A behaviour whose first execution of a test requests a successful
reboot and whose re-run completes normally. -/
def rerunBehaviour : Nat → Nat → TestRun := fun _ a =>
  if a = 0 then ⟨[⟨.fail, none⟩], .success, false⟩
  else ⟨[⟨.pass, none⟩], .notRequested, false⟩

/-- Witness for C10 at a one-test plan rebooting once. -/
theorem reboot_success_discards_and_reruns_witness :
    (0 : Nat) < 1 ∧ (rerunBehaviour 0 0).reboot = .success ∧
    (runLoop rerunBehaviour 1 false (3 + 1) ⟨0, 0, [], [], none⟩ =
        runLoop rerunBehaviour 1 false 3
          ⟨0, 0 + 1, [], [] ++ [(0, 0)], none⟩ ∧
      ((rerunBehaviour 0 (0 + 1)).reboot = .notRequested →
        (rerunBehaviour 0 (0 + 1)).abortAfter = false →
        false = false →
        ∃ st2, runLoop rerunBehaviour 1 false (3 + 1 + 1) ⟨0, 0, [], [], none⟩ =
          runLoop rerunBehaviour 1 false 3 st2 ∧
          st2.index = 0 + 1 ∧ st2.attempt = 0 ∧
          st2.collected = [] ++ (rerunBehaviour 0 (0 + 1)).results ∧
          st2.executed = [] ++ [(0, 0), (0, 0 + 1)])) :=
  ⟨by decide, rfl,
    reboot_success_discards_and_reruns rerunBehaviour 1 false 3
      ⟨0, 0, [], [], none⟩ (by decide) rfl⟩

end Tmt
